import Mathlib

/-!
Verification of the frame-composition and scroll-animation logic of
`scrolling_text.py` (dazdaz/ascii-art), shallowly embedded in Lean 4.

Modelling conventions:
* Python strings are modelled as `String` / `List Char` (both count Unicode
  code points, as Python `len` does).
* Python slicing `s[a:b]` with non-negative bounds is `(l.take b).drop a`
  (clamping at the ends is automatic).
* Python floor division `//` on integers is `Int.fdiv`.
* Python string repetition `s * n` with an `Int` count clamps negative
  counts to zero, i.e. `List.replicate n.toNat`.
* Python `str.ljust(w)` pads on the right with spaces up to width `w`
  (never truncates): `l ++ List.replicate (w - l.length) ' '`.
-/

namespace ScrollingText

/-- The ASCII-art logo, line by line (source lines 20-27). -/
def logo : List String := [
  "  ██████╗ ███████╗███╗   ███╗██╗███╗   ██╗ ",
  " ██╔════╝ ██╔════╝████╗ ████║██║████╗  ██║ ",
  " ██║  ███╗█████╗  ██╔████╔██║██║██╔██╗ ██║ ",
  " ██║   ██║██╔══╝  ██║╚██╔╝██║██║██║╚██╗██║ ",
  " ╚██████╔╝███████╗██║ ╚═╝ ██║██║██║ ╚████║ ",
  "  ╚═════╝ ╚══════╝╚═╝     ╚═╝╚═╝╚═╝  ╚═══╝ "
]

/-- `logo_width = len(logo[0])` (source line 28). -/
def logo_width : Nat := (logo.headD "").length

/-- `logo_height = len(logo)` (source line 29). -/
def logo_height : Nat := logo.length

/-- The scroll message; the source repeats the base string three times
(source lines 33-37). -/
def scrollbase : String :=
  "   *** GREETINGS FROM GEMINI! THIS IS A PYTHON ASCII DEMO " ++
  "INSPIRED BY THE CLASSIC AMIGA SCENE OF THE LATE 80S AND EARLY 90S. " ++
  "KEEP THE OLD SCHOOL SPIRIT ALIVE! ***"

def scrolltext : String := scrollbase ++ scrollbase ++ scrollbase

/-- The scroll text as a character list. -/
def stext : List Char := scrolltext.data

/-- ANSI escape strings from the `colors` dict (source lines 43-52). -/
def colors_reset : String := "\x1b[0m"

def colors_bold : String := "\x1b[1m"

def colors_red : String := "\x1b[91m"

def colors_green : String := "\x1b[92m"

def colors_yellow : String := "\x1b[93m"

def colors_blue : String := "\x1b[94m"

def colors_magenta : String := "\x1b[95m"

def colors_cyan : String := "\x1b[96m"

/-- `color_cycle` (source line 54). -/
def color_cycle : List String :=
  [colors_cyan, colors_magenta, colors_yellow, colors_green, colors_red]

/-- The mutable per-frame state: `color_index` and `scroll_pos`. -/
structure DemoState where
  color_index : Nat
  scroll_pos : Nat
  deriving DecidableEq, Repr

/-- Initial state: `color_index = 0`, `scroll_pos = 0` (source lines 38, 55). -/
def initState : DemoState := ⟨0, 0⟩

/-- The state advance executed at the end of each frame (source lines 139-141):
`color_index = (color_index + 1) % len(color_cycle)`;
`scroll_pos = (scroll_pos + 1) % len(scrolltext)`. -/
def tick (s : DemoState) : DemoState :=
  { color_index := (s.color_index + 1) % color_cycle.length,
    scroll_pos := (s.scroll_pos + 1) % scrolltext.length }

/-- Python slice `l[a:b]` with non-negative bounds. -/
def pySlice (l : List Char) (a b : Nat) : List Char := (l.take b).drop a

/-- Python `s * n` for an integer count (negative counts yield the empty
string). -/
def pyRepeat (c : Char) (n : Int) : List Char := List.replicate n.toNat c

/-- Python `s.ljust(w)`. -/
def ljust (l : List Char) (w : Nat) : List Char :=
  l ++ List.replicate (w - l.length) ' '

/-- The scroller window (source line 122):
`(scrolltext + scrolltext[:term_width])[scroll_pos : scroll_pos + term_width]`. -/
def scroller_view (pos w : Nat) : List Char :=
  pySlice (stext ++ stext.take w) pos (pos + w)

/-- `top_padding = (term_height - logo_height - 2) // 2` (source line 97),
Python floor division on possibly negative integers. -/
def top_padding (h : Nat) : Int :=
  Int.fdiv ((h : Int) - (logo_height : Int) - 2) 2

/-- `left_padding_str = " " * ((term_width - logo_width) // 2)`
(source line 98). -/
def left_padding_str (w : Nat) : List Char :=
  pyRepeat ' ' (Int.fdiv ((w : Int) - (logo_width : Int)) 2)

/-- The blank lines emitted before the logo (source lines 101-102):
`if top_padding > 0: buffer += "\n" * top_padding`. -/
def topPaddingStr (h : Nat) : List Char :=
  if 0 < top_padding h then pyRepeat '\n' (top_padding h) else []

/-- `fill_lines = term_height - top_padding - logo_height - 1`
(source line 116). -/
def fill_lines (h : Nat) : Int :=
  (h : Int) - top_padding h - (logo_height : Int) - 1

/-- The blank lines emitted between logo and scroller (source lines 117-118). -/
def fillStr (h : Nat) : List Char :=
  if 0 < fill_lines h then pyRepeat '\n' (fill_lines h) else []

/-- One rendered logo line (source lines 108-112):
`left_padding_str + current_color + logo[i] + colors['reset'] + "\n"`. -/
def logoLine (w : Nat) (color : String) (line : String) : List Char :=
  left_padding_str w ++ color.data ++ line.data ++ colors_reset.data ++ ['\n']

/-- The logo block: the loop over `range(logo_height)` appending each
`logoLine` (source lines 108-112). -/
def logoBlock (w : Nat) (color : String) : List Char :=
  (logo.map (logoLine w color)).flatten

/-- The styled scroller line (source lines 125-129):
`colors['bold'] + colors['yellow'] + scroller_view.ljust(term_width) +
colors['reset']`. -/
def scrollerLine (pos w : Nat) : List Char :=
  colors_bold.data ++ colors_yellow.data ++
    ljust (scroller_view pos w) w ++ colors_reset.data

/-- One full frame buffer, assembled exactly in source order
(source lines 90-129): cursor-home, top padding, colored logo lines,
fill lines, styled scroller. -/
def renderFrame (vp : Nat × Nat) (st : DemoState) : List Char :=
  "\x1b[H".data
    ++ topPaddingStr vp.2
    ++ logoBlock vp.1 (color_cycle.getD st.color_index "")
    ++ fillStr vp.2
    ++ scrollerLine st.scroll_pos vp.1

/-- The per-frame terminal-size query with fallback (source lines 79-85):
on `OSError` the fixed default `(80, 24)` is substituted. -/
def resolveViewport : Option (Nat × Nat) → Nat × Nat
  | some wh => wh
  | none => (80, 24)

/-- A frame rendered from the raw (possibly failed) terminal-size query. -/
def renderFrameFromQuery (q : Option (Nat × Nat)) (st : DemoState) : List Char :=
  renderFrame (resolveViewport q) st

/-! ### Basic facts about the embedded constants -/

lemma color_cycle_length : color_cycle.length = 5 := rfl

set_option maxRecDepth 4000 in
lemma scrolltext_length : scrolltext.length = 486 := by decide

set_option maxRecDepth 4000 in
lemma stext_length : stext.length = 486 := by decide

/-- Indexing into a Python-style slice `l[a : a+w]`: position `j < w` of the
slice reads position `a + j` of the underlying list. -/
lemma getElem?_pySlice (l : List Char) (a w j : Nat) (hj : j < w) :
    (pySlice l a (a + w))[j]? = l[a + j]? := by
  unfold pySlice
  rw [List.getElem?_drop]
  exact List.getElem?_take_of_lt (by omega)

/-! ### C1: the two counters are pure modular counters -/

/-- C1. Starting from scroll offset 0 and palette index 0, after `N` ticks the
palette index is `N mod 5` and the scroll offset is `N mod 486` (the scroll
text length); both always lie below their modulus, and each tick advances each
counter by exactly one modulo its modulus, independent of what was rendered. -/
theorem counters_after_N_ticks (N : Nat) :
    (tick^[N] initState).color_index = N % color_cycle.length ∧
    (tick^[N] initState).scroll_pos = N % scrolltext.length ∧
    (tick^[N] initState).color_index < color_cycle.length ∧
    (tick^[N] initState).scroll_pos < scrolltext.length ∧
    (∀ s : DemoState,
      (tick s).color_index = (s.color_index + 1) % color_cycle.length ∧
      (tick s).scroll_pos = (s.scroll_pos + 1) % scrolltext.length) := by
  have hc : color_cycle.length = 5 := color_cycle_length
  have hs : scrolltext.length = 486 := scrolltext_length
  have main : (tick^[N] initState).color_index = N % color_cycle.length ∧
      (tick^[N] initState).scroll_pos = N % scrolltext.length := by
    induction N with
    | zero => simp [initState]
    | succ n ih =>
      rw [Function.iterate_succ_apply']
      rcases ih with ⟨ih1, ih2⟩
      constructor
      · show ((tick^[n] initState).color_index + 1) % color_cycle.length = _
        rw [ih1, hc]; omega
      · show ((tick^[n] initState).scroll_pos + 1) % scrolltext.length = _
        rw [ih2, hs]; omega
  refine ⟨main.1, main.2, ?_, ?_, fun s => ⟨rfl, rfl⟩⟩
  · rw [main.1, hc]; omega
  · rw [main.2, hs]; omega

/-! ### C3: the padded scroller line has exactly the viewport width -/

/-- C3. For any scroll position and any viewport width `w`, the extracted
window never exceeds `w` characters, and after right-padding with spaces
(`ljust`) the scroller line consists of exactly `w` characters. -/
theorem scroller_line_exact_width (pos w : Nat) :
    (scroller_view pos w).length ≤ w ∧
    (ljust (scroller_view pos w) w).length = w ∧
    (scrollerLine pos w).length =
      colors_bold.length + colors_yellow.length + w + colors_reset.length := by
  have hle : (scroller_view pos w).length ≤ w := by
    simp only [scroller_view, pySlice, List.length_drop, List.length_take]
    omega
  have heq : (ljust (scroller_view pos w) w).length = w := by
    simp only [ljust, List.length_append, List.length_replicate]
    omega
  refine ⟨hle, heq, ?_⟩
  simp only [scrollerLine, List.length_append, heq, String.length]

/-! ### C4: number of blank top-padding lines -/

/-- C4. For every viewport height `h`, the number of blank top-padding lines
emitted before the logo equals `⌊(h − logo_height − 2) / 2⌋` (floor division
over the integers) when that value is positive, and zero otherwise — in
particular the padding is simply omitted, with no failure, on undersized
terminals. -/
theorem top_padding_line_count (h : Nat) :
    (topPaddingStr h).length =
      if 0 < Int.fdiv ((h : Int) - 6 - 2) 2
      then (Int.fdiv ((h : Int) - 6 - 2) 2).toNat
      else 0 := by
  have hlh : (logo_height : Int) = 6 := by decide
  simp only [topPaddingStr, top_padding, pyRepeat, hlh]
  split <;> simp [List.length_replicate]

/-! ### C9: terminal-size query failure falls back to 80×24 -/

/-- C9. When the per-frame terminal-size query fails (returns no size), the
frame is still produced, rendered exactly as with the fixed default viewport
`(80, 24)`; a successful query is used as-is. The renderer is a total
function, so the failure is fully recovered locally and never surfaced. -/
theorem viewport_query_fallback (st : DemoState) :
    resolveViewport none = (80, 24) ∧
    renderFrameFromQuery none st = renderFrame (80, 24) st ∧
    (∀ wh, renderFrameFromQuery (some wh) st = renderFrame wh st) :=
  ⟨rfl, rfl, fun _ => rfl⟩

/-! ### C2: the scroller window is a circular read of the scroll text -/

set_option maxRecDepth 20000 in
/-- C2 counterexample. The circular-read property fails for a viewport wider
than twice the scroll text: at offset 485 (< 486), width 488 and position
j = 487 < 488, the constructed view has no character, while the circular read
of the scroll text does. -/
theorem scroller_view_not_circular_at_width_488 :
    ¬ ((scroller_view 485 488)[487]? =
        stext[(485 + 487) % stext.length]?) := by decide

/-- C2 amended. For every offset in `[0, text length)` and every viewport
width `w ≤ text length + 1` — in particular every width not exceeding the
scroll text length — character `j < w` of the scroller view equals character
`(offset + j) mod text length` of the scroll text: the window is a seamless
circular read. -/
theorem scroller_view_circular (pos w j : Nat) (hpos : pos < stext.length)
    (hw : w ≤ stext.length + 1) (hj : j < w) :
    (scroller_view pos w)[j]? = stext[(pos + j) % stext.length]? := by
  unfold scroller_view
  rw [getElem?_pySlice _ _ _ _ hj]
  by_cases hlt : pos + j < stext.length
  · rw [List.getElem?_append_left hlt, Nat.mod_eq_of_lt hlt]
  · push_neg at hlt
    have hidx : (pos + j) % stext.length = pos + j - stext.length := by
      rw [Nat.mod_eq_sub_mod hlt, Nat.mod_eq_of_lt (by omega)]
    rw [hidx, List.getElem?_append_right hlt]
    exact List.getElem?_take_of_lt (by omega)

set_option maxRecDepth 20000 in
/-- Witness for C2 at offset 5, width 80, position 3. -/
theorem scroller_view_circular_witness :
    (5 < stext.length ∧ 80 ≤ stext.length + 1 ∧ 3 < 80) ∧
    (scroller_view 5 80)[3]? = stext[(5 + 3) % stext.length]? :=
  ⟨by decide, scroller_view_circular 5 80 3 (by decide) (by decide) (by decide)⟩

/-! ### C5 and C10: horizontal centering of the logo -/

/-- C5 counterexample. At viewport width 0 the constructed left-padding prefix
has 0 characters, while `⌊(0 − logo_width) / 2⌋ = −22`: the prefix length is
not the (negative) floor value, so clamping does occur. -/
theorem left_padding_not_floor_at_width_zero :
    ¬ (((left_padding_str 0).length : Int) =
        Int.fdiv ((0 : Int) - (logo_width : Int)) 2) := by decide

/-- C5 amended. Every logo line is prefixed with exactly
`max (⌊(w − logo_width) / 2⌋) 0` space characters — the floor value exactly
whenever it is non-negative (in particular whenever `w ≥ logo_width`), and
zero otherwise — the same prefix applied identically to every logo line. -/
theorem left_padding_length (w : Nat) :
    ((left_padding_str w).length : Int) =
      max (Int.fdiv ((w : Int) - (logo_width : Int)) 2) 0 ∧
    (∀ color line, logoLine w color line =
      left_padding_str w ++
        (color.data ++ line.data ++ colors_reset.data ++ ['\n'])) := by
  constructor
  · simp only [left_padding_str, pyRepeat, List.length_replicate]
    exact Int.toNat_eq_max _
  · intro color line
    simp [logoLine, List.append_assoc]

/-- C10. For every viewport width strictly smaller than the logo width the
left-padding string is empty (Python string repetition by a negative count
yields no characters), so every logo line is emitted with zero leading spaces
and the frame is still well-formed. -/
theorem narrow_viewport_empty_left_padding (w : Nat) (hw : w < logo_width) :
    left_padding_str w = [] ∧
    (∀ color line, logoLine w color line =
      color.data ++ line.data ++ colors_reset.data ++ ['\n']) := by
  have hlt : (w : Int) - (logo_width : Int) < 0 := by
    have : (w : Int) < (logo_width : Int) := by exact_mod_cast hw
    omega
  have hfd : Int.fdiv ((w : Int) - (logo_width : Int)) 2 ≤ 0 := by
    rw [Int.fdiv_eq_ediv _ (by norm_num)]
    omega
  have hempty : left_padding_str w = [] := by
    simp [left_padding_str, pyRepeat, Int.toNat_eq_zero.mpr hfd]
  exact ⟨hempty, fun color line => by simp [logoLine, hempty]⟩

/-- Witness for C10 at viewport width 10. -/
theorem narrow_viewport_empty_left_padding_witness :
    10 < logo_width ∧ left_padding_str 10 = [] :=
  ⟨by decide, (narrow_viewport_empty_left_padding 10 (by decide)).1⟩

/-! ### C6: wraparound shape of the window at offset L − k -/

/-- The window shape asserted by the spec for offset `length − k`: the tail
`k` characters of the scroll text followed by its first `w − k` characters
(built from the spec's words, for comparison with `scroller_view`). -/
def tailHeadWindow (k w : Nat) : List Char :=
  stext.drop (stext.length - k) ++ stext.take (w - k)

set_option maxRecDepth 20000 in
/-- C6 counterexample. For `k = 2` and width `W = 1 ≤ k` (as the claim
quantifies) the produced window has 1 character while the tail-2/head-(−1)
concatenation has 2: the two disagree. -/
theorem wraparound_fails_for_width_below_k :
    scroller_view (stext.length - 2) 1 ≠ tailHeadWindow 2 1 := by decide

/-- C6 amended. For every `k` in `(0, text length]` and every width `w` with
`k ≤ w ≤ text length`, the window produced at offset `text length − k` equals
the tail `k` characters of the scroll text followed by its first `w − k`
characters — the circular read across the boundary. -/
theorem scroller_view_wraparound (k w : Nat) (hk : 0 < k)
    (hkL : k ≤ stext.length) (hwk : k ≤ w) (hwL : w ≤ stext.length) :
    scroller_view (stext.length - k) w = tailHeadWindow k w := by
  have hlen1 : (scroller_view (stext.length - k) w).length = w := by
    simp only [scroller_view, pySlice, List.length_drop, List.length_take,
      List.length_append]
    omega
  have hlen2 : (tailHeadWindow k w).length = w := by
    simp only [tailHeadWindow, List.length_append, List.length_drop,
      List.length_take]
    omega
  apply List.ext_getElem?
  intro j
  by_cases hj : j < w
  · have hview : (scroller_view (stext.length - k) w)[j]? =
        (stext ++ stext.take w)[stext.length - k + j]? := by
      unfold scroller_view
      exact getElem?_pySlice _ _ _ _ hj
    by_cases hjk : j < k
    · have hL1 : (stext ++ stext.take w)[stext.length - k + j]? =
          stext[stext.length - k + j]? :=
        List.getElem?_append_left (by omega)
      have hR1 : (tailHeadWindow k w)[j]? = stext[stext.length - k + j]? := by
        unfold tailHeadWindow
        rw [List.getElem?_append_left (by rw [List.length_drop]; omega),
          List.getElem?_drop]
      rw [hview, hL1, hR1]
    · push_neg at hjk
      have hL2 : (stext ++ stext.take w)[stext.length - k + j]? =
          stext[j - k]? := by
        rw [List.getElem?_append_right (by omega)]
        have e1 : stext.length - k + j - stext.length = j - k := by omega
        rw [e1]
        exact List.getElem?_take_of_lt (by omega)
      have hR2 : (tailHeadWindow k w)[j]? = stext[j - k]? := by
        unfold tailHeadWindow
        rw [List.getElem?_append_right (by rw [List.length_drop]; omega)]
        rw [List.length_drop]
        have e2 : j - (stext.length - (stext.length - k)) = j - k := by omega
        rw [e2]
        exact List.getElem?_take_of_lt (by omega)
      rw [hview, hL2, hR2]
  · push_neg at hj
    rw [List.getElem?_eq_none (by rw [hlen1]; omega),
      List.getElem?_eq_none (by rw [hlen2]; omega)]

set_option maxRecDepth 20000 in
/-- Witness for C6 at `k = 2`, width 10. -/
theorem scroller_view_wraparound_witness :
    (0 < 2 ∧ 2 ≤ stext.length ∧ 2 ≤ 10 ∧ 10 ≤ stext.length) ∧
    scroller_view (stext.length - 2) 10 = tailHeadWindow 2 10 :=
  ⟨by decide,
    scroller_view_wraparound 2 10 (by decide) (by decide) (by decide)
      (by decide)⟩

/-! ### C7: concrete dimensions and the 80×24 fixture -/

/-- C7 counterexample. The logo's line length (and hence `logo_width`,
`len(logo[0])`) is 43, not 44. -/
theorem logo_width_not_44 : logo_width ≠ 44 := by decide

/-- C7 amended. The logo has height 6 and width 43 (every line has length 43,
so 43 is also the maximum line length); with the fixed 80×24 viewport the top
padding evaluates to `⌊(24 − 6 − 2) / 2⌋ = 8` blank lines and the fill-line
count to `24 − 8 − 6 − 1 = 9` blank lines. -/
theorem logo_dimensions_fixture :
    logo_height = 6 ∧ logo_width = 43 ∧ (∀ l ∈ logo, l.length = 43) ∧
    top_padding 24 = 8 ∧ (topPaddingStr 24).length = 8 ∧
    fill_lines 24 = 9 ∧ (fillStr 24).length = 9 := by decide

/-! ### C8: lifecycle guard (try / except KeyboardInterrupt / finally) -/

/-- How the animation loop terminates: a keyboard interrupt (caught by the
`except KeyboardInterrupt` handler) or any other exception propagating out of
the loop body. -/
inductive ExitKind where
  | interrupted
  | errored
  deriving DecidableEq, Repr

/-- The externally visible lifecycle actions of `main`: hide the cursor
(source line 70), render one frame (lines 75-144), print the farewell message
(line 148), show the cursor (line 154), reset text styling (line 156). -/
inductive GuardEvent where
  | hideCursor
  | renderedFrame (i : Nat)
  | farewell
  | showCursor
  | resetStyle
  deriving DecidableEq, Repr

/-- The events the `except` handler contributes (source lines 146-148): only a
keyboard interrupt is caught, printing the farewell; any other exception adds
nothing before the `finally` block runs. -/
def exitEvents : ExitKind → List GuardEvent
  | .interrupted => [GuardEvent.farewell]
  | .errored => []

/-- The lifecycle trace of an execution of `main` that renders `n` frames and
then terminates with exit kind `e` (source lines 68-157): the `try` body hides
the cursor and renders frames; the handler contributes `exitEvents e`; the
`finally` block then shows the cursor and resets styling, on every path. -/
def lifecycleTrace (n : Nat) (e : ExitKind) : List GuardEvent :=
  GuardEvent.hideCursor ::
    ((List.range n).map GuardEvent.renderedFrame ++ exitEvents e ++
      [GuardEvent.showCursor, GuardEvent.resetStyle])

lemma count_map_renderedFrame (l : List Nat) (g : GuardEvent)
    (hg : ∀ i, g ≠ GuardEvent.renderedFrame i) :
    (l.map GuardEvent.renderedFrame).count g = 0 := by
  rw [List.count_eq_zero]
  intro hmem
  rcases List.mem_map.mp hmem with ⟨i, _, hi⟩
  exact hg i hi.symm

/-- C8. For every number of rendered frames and on both exit paths —
interrupt-triggered shutdown or any other termination of the loop — the
cursor-show action and the final style-reset action each occur exactly once in
the lifecycle trace, and only after the cursor-hide action (which is the very
first event); on the interrupt path the farewell message precedes the
restoration. -/
theorem lifecycle_guard (n : Nat) (e : ExitKind) :
    (lifecycleTrace n e).count GuardEvent.showCursor = 1 ∧
    (lifecycleTrace n e).count GuardEvent.resetStyle = 1 ∧
    (lifecycleTrace n e)[0]? = some GuardEvent.hideCursor ∧
    (∀ i, (lifecycleTrace n e)[i]? = some GuardEvent.showCursor ∨
          (lifecycleTrace n e)[i]? = some GuardEvent.resetStyle → 0 < i) ∧
    (e = ExitKind.interrupted → ∃ i j : Nat, i < j ∧
      (lifecycleTrace n e)[i]? = some GuardEvent.farewell ∧
      (lifecycleTrace n e)[j]? = some GuardEvent.showCursor) := by
  have hshow : ((List.range n).map GuardEvent.renderedFrame).count
      GuardEvent.showCursor = 0 :=
    count_map_renderedFrame _ _ (fun i => by simp)
  have hreset : ((List.range n).map GuardEvent.renderedFrame).count
      GuardEvent.resetStyle = 0 :=
    count_map_renderedFrame _ _ (fun i => by simp)
  refine ⟨?_, ?_, ?_, ?_, ?_⟩
  · cases e <;>
      simp [lifecycleTrace, exitEvents, List.count_append, List.count_cons,
        hshow]
  · cases e <;>
      simp [lifecycleTrace, exitEvents, List.count_append, List.count_cons,
        hreset]
  · simp [lifecycleTrace]
  · intro i h
    cases i with
    | zero => rcases h with h | h <;> simp [lifecycleTrace] at h
    | succ m => exact Nat.succ_pos m
  · intro he
    subst he
    refine ⟨n + 1, n + 2, by omega, ?_, ?_⟩
    · unfold lifecycleTrace
      rw [List.getElem?_cons_succ]
      rw [List.getElem?_append_left (by simp [exitEvents])]
      rw [List.getElem?_append_right (by simp)]
      simp [exitEvents]
    · unfold lifecycleTrace
      rw [List.getElem?_cons_succ]
      rw [List.getElem?_append_right (by simp [exitEvents])]
      simp [exitEvents]

/-- Witness for C8: an execution of two frames ended by the interrupt. -/
theorem lifecycle_guard_witness :
    (lifecycleTrace 2 ExitKind.interrupted).count GuardEvent.showCursor = 1 ∧
    (∃ i j : Nat, i < j ∧
      (lifecycleTrace 2 ExitKind.interrupted)[i]? = some GuardEvent.farewell ∧
      (lifecycleTrace 2 ExitKind.interrupted)[j]? =
        some GuardEvent.showCursor) :=
  ⟨(lifecycle_guard 2 ExitKind.interrupted).1,
    (lifecycle_guard 2 ExitKind.interrupted).2.2.2.2 rfl⟩

end ScrollingText
